import Mathlib

/-!
Verification of the Beam authentication and token-issuance subsystem.

The Rust implementation of `beam-auth` is not part of the checked-in sources
here; only its README, the web client that calls it, and the design document
are. The auth core (Credential Verifier, Session Store, Token Issuer, Auth
Orchestrator) is therefore modelled from the design document, faithful to its
words; the web-client definitions (`mediaFetchRequest`, `clientLogout`,
`useAuth`) are embedded directly from the TypeScript sources.

Modelling conventions: times are `Nat` seconds; session ids are `Nat` drawn
from a fresh counter (standing in for 32 random URL-safe bytes, whose
collision probability the design treats as negligible); the HMAC-SHA256
signature is modelled by an injective pairing of the secret with the claim
fields; token strings are represented by their decoded claims-plus-signature
records (the `Malformed` decode failure of a raw string is thus not
representable and never produced).
-/

namespace Beam

/-- Modelled from the spec: the token-verification failure taxonomy
(`Malformed`, `BadSignature`, `Expired`, `ScopeMismatch`); the Rust
`TokenError` type of beam-auth is not in the sources. -/
inductive TokenError where
  | Malformed
  | BadSignature
  | Expired
  | ScopeMismatch
deriving DecidableEq, Repr

/-- Modelled from the spec: the orchestrator-level error taxonomy; the Rust
`AuthError` type of beam-auth is not in the sources. -/
inductive AuthError where
  | InvalidCredentials
  | UsernameTaken
  | EmailTaken
  | SessionNotFound
  | StoreUnavailable
  | Unauthorized
deriving DecidableEq, Repr

/-- Modelled from the spec: a session record (`user_id`, `created_at`,
`expires_at` with expiry = creation + TTL); the Rust `Session` struct of
beam-auth is not in the sources. -/
structure Session where
  user_id : Nat
  created_at : Nat
  expires_at : Nat
deriving DecidableEq, Repr

/-- Modelled from the spec: the Session Store state, an association of
session ids to records plus the fresh-id source standing in for the random
generator; the Rust session-store implementations of beam-auth are not in
the sources. -/
structure Store where
  sessions : List (Nat × Session)
  nextId : Nat
deriving DecidableEq, Repr

/-- Modelled from the spec: `create(user_id, ttl)` generates a fresh id,
writes a record with computed expiry and returns the id; the Rust
implementation is not in the sources. -/
def Store.create (st : Store) (uid ttl now : Nat) : Nat × Store :=
  let sid := st.nextId
  let s : Session := { user_id := uid, created_at := now, expires_at := now + ttl }
  (sid, { sessions := (sid, s) :: st.sessions, nextId := st.nextId + 1 })

/-- Modelled from the spec: `get(session_id)` returns the record if present
and not expired; an expired-but-present record is treated as `none`; the
Rust implementation is not in the sources. -/
def Store.get (st : Store) (sid now : Nat) : Option Session :=
  match st.sessions.find? (fun p => p.1 == sid) with
  | none => none
  | some p => if p.2.expires_at ≤ now then none else some p.2

/-- Modelled from the spec: `delete(session_id)` is idempotent and deleting
an absent id is not an error; the Rust implementation is not in the
sources. -/
def Store.delete (st : Store) (sid : Nat) : Store :=
  { st with sessions := st.sessions.filter (fun p => p.1 != sid) }

/-- Access-token lifetime: 15 minutes, in seconds. -/
def accessTokenTtl : Nat := 15 * 60

/-- Stream-token lifetime: 6 hours, in seconds. -/
def streamTokenTtl : Nat := 6 * 60 * 60

/-- Modelled from the spec: the access-token claim set `sub`, `sid`, `exp`,
`iat`; the Rust claims struct of beam-auth is not in the sources. -/
structure AccessClaims where
  sub : Nat
  sid : Nat
  exp : Nat
  iat : Nat
deriving DecidableEq, Repr

/-- A deterministic code for a string, used to feed string claims into the
modelled signature. -/
def strCode (s : String) : Nat :=
  s.data.foldl (fun a ch => a * 1114112 + ch.toNat) 1

/-- Modelled from the spec: the HMAC-SHA256 over header and payload of an
access token, modelled as an injective pairing of the secret with the claim
fields; the real cryptographic primitive is outside the sources. -/
def macAccess (secret : Nat) (c : AccessClaims) : Nat :=
  Nat.pair secret (Nat.pair c.sub (Nat.pair c.sid (Nat.pair c.exp c.iat)))

/-- Modelled from the spec: a compact encoded access token, represented by
its decoded claims and signature. -/
structure AccessToken where
  claims : AccessClaims
  sig : Nat
deriving DecidableEq, Repr

/-- Modelled from the spec: `sign_access(user_id, session_id)` builds the
claims (`exp` = issue time + 15 minutes) and signs them; the Rust Token
Issuer of beam-auth is not in the sources. -/
def sign_access (secret uid sid now : Nat) : AccessToken :=
  let c : AccessClaims := { sub := uid, sid := sid, exp := now + accessTokenTtl, iat := now }
  { claims := c, sig := macAccess secret c }

/-- Modelled from the spec: `verify_access(token)` checks the signature then
checks `exp > now`, failing with `BadSignature` or `Expired`; verification
uses the caller-supplied current time; the Rust implementation is not in
the sources. -/
def verify_access (secret : Nat) (t : AccessToken) (now : Nat) :
    Except TokenError (Nat × Nat) :=
  if t.sig ≠ macAccess secret t.claims then .error .BadSignature
  else if t.claims.exp ≤ now then .error .Expired
  else .ok (t.claims.sub, t.claims.sid)

/-- Modelled from the spec: the stream-token claim set `sub`, `stream_id`,
`exp`, `iat` — deliberately with no `sid` field; the Rust claims struct of
beam-auth is not in the sources. -/
structure StreamClaims where
  sub : Nat
  stream_id : String
  exp : Nat
  iat : Nat
deriving DecidableEq, Repr

/-- Modelled from the spec: the signature over a stream token's claims,
same modelling as `macAccess`. -/
def macStream (secret : Nat) (c : StreamClaims) : Nat :=
  Nat.pair secret (Nat.pair c.sub (Nat.pair (strCode c.stream_id) (Nat.pair c.exp c.iat)))

/-- Modelled from the spec: a compact encoded stream token, represented by
its decoded claims and signature. -/
structure StreamToken where
  claims : StreamClaims
  sig : Nat
deriving DecidableEq, Repr

/-- Modelled from the spec: `sign_stream(user_id, stream_id)` builds the
claims (`exp` = issue time + 6 hours) and signs them; the Rust
implementation is not in the sources. -/
def sign_stream (secret uid : Nat) (stream_id : String) (now : Nat) : StreamToken :=
  let c : StreamClaims :=
    { sub := uid, stream_id := stream_id, exp := now + streamTokenTtl, iat := now }
  { claims := c, sig := macStream secret c }

/-- Modelled from the spec: `verify_stream(token, expected_stream_id)` has
the same shape as `verify_access` plus a `ScopeMismatch` failure when
`expected_stream_id` differs from the claim; it consults no session store;
the Rust implementation is not in the sources. -/
def verify_stream (secret : Nat) (t : StreamToken) (expected : String) (now : Nat) :
    Except TokenError Nat :=
  if t.sig ≠ macStream secret t.claims then .error .BadSignature
  else if t.claims.exp ≤ now then .error .Expired
  else if t.claims.stream_id ≠ expected then .error .ScopeMismatch
  else .ok t.claims.sub

/-- Modelled from the spec: a stored user record with identifier, username,
email, password hash and admin flag; the Rust entity is not in the
sources. -/
structure User where
  id : Nat
  username : String
  email : String
  password_hash : Nat
  is_admin : Bool
deriving DecidableEq, Repr

/-- Modelled from the spec: the salted password hash, modelled as the string
code of the password; the real hash is outside the sources. -/
def hashPassword (pw : String) : Nat := strCode pw

/-- Modelled from the spec: the constant-time comparison of a supplied
password against the stored hash. -/
def verifyPassword (stored : Nat) (pw : String) : Bool := stored == hashPassword pw

/-- Modelled from the spec: the user-repository lookup by username or
email; the external collaborator is not in the sources. -/
def findUser (users : List User) (identifier : String) : Option User :=
  users.find? (fun u => u.username == identifier || u.email == identifier)

/-- Modelled from the spec: the Credential Verifier
`verify(identifier, password)`: lookup by username or email, failing with
`InvalidCredentials` when not found, then password comparison, failing with
`InvalidCredentials` on mismatch; the Rust implementation is not in the
sources. -/
def credentialVerify (users : List User) (identifier pw : String) :
    Except AuthError User :=
  match findUser users identifier with
  | none => .error .InvalidCredentials
  | some u =>
      if verifyPassword u.password_hash pw then .ok u
      else .error .InvalidCredentials

/-- Modelled from the spec: the state seen by the Auth Orchestrator — the
external user repository and the Session Store. -/
structure AuthState where
  users : List User
  store : Store
deriving DecidableEq, Repr

/-- Modelled from the spec: `login(identifier, password)`: Credential
Verifier check, then Session Store `create`, then `sign_access`, returning
the session id and the access token; verifier failure is propagated
unwrapped; the Rust orchestrator is not in the sources. -/
def login (secret : Nat) (st : AuthState) (identifier pw : String) (ttl now : Nat) :
    Except AuthError (Nat × AccessToken) × AuthState :=
  match credentialVerify st.users identifier pw with
  | .error e => (.error e, st)
  | .ok u =>
      let r := st.store.create u.id ttl now
      (.ok (r.1, sign_access secret u.id r.1 now), { st with store := r.2 })

/-- Modelled from the spec: `refresh(session_id)`: Session Store `get`,
failing `SessionNotFound` when absent or expired; on success mints a fresh
access token bound to the same session id, neither rotating the id nor
extending `expires_at`; the Rust orchestrator is not in the sources. -/
def refresh (secret : Nat) (st : AuthState) (sid now : Nat) :
    Except AuthError AccessToken × AuthState :=
  match st.store.get sid now with
  | none => (.error .SessionNotFound, st)
  | some s => (.ok (sign_access secret s.user_id sid now), st)

/-- Modelled from the spec: `logout(session_id)`: Session Store `delete`;
always succeeds (the return type carries no error) even when the session was
already gone; the Rust orchestrator is not in the sources. -/
def logout (st : AuthState) (sid : Nat) : AuthState :=
  { st with store := st.store.delete sid }

/-- Modelled from the spec: `issue_stream_token(access_token, stream_id)`:
`verify_access` first, then the embedded session must still resolve in the
store; all access-token failures collapse to `Unauthorized`; on success a
scoped stream token is minted; the Rust orchestrator is not in the
sources. -/
def issue_stream_token (secret : Nat) (st : AuthState) (tok : AccessToken)
    (stream_id : String) (now : Nat) : Except AuthError StreamToken :=
  match verify_access secret tok now with
  | .error _ => .error .Unauthorized
  | .ok r =>
      match st.store.get r.2 now with
      | none => .error .Unauthorized
      | some _ => .ok (sign_stream secret r.1 stream_id now)

/-! Web-client embeddings, taken directly from the TypeScript sources of
`beam-web` (the `loadVideo` flow of `media.$id.tsx`) and the auth hook
module (`AuthProvider` / `useAuth`). -/

/-- An outgoing HTTP request as the web client assembles it: the URL and
the optional `Authorization` header value. -/
structure HttpRequest where
  url : String
  authHeader : Option String
deriving DecidableEq, Repr

/-- Step 1 of `loadVideo` in `media.$id.tsx`: the POST that exchanges the
user's auth token for a stream token. The path is built from the media id;
the access token travels in the `Authorization` header. -/
def streamTokenRequest (baseUrl mediaId accessToken : String) : HttpRequest :=
  { url := baseUrl ++ "/v1/stream/" ++ mediaId ++ "/token",
    authHeader := some ("Bearer " ++ accessToken) }

/-- Step 2 of `loadVideo` in `media.$id.tsx`: the fetch of the media bytes.
The URL is built from the server base URL and the media id; the stream
token travels only in the `Authorization` header. -/
def mediaFetchRequest (baseUrl mediaId streamToken : String) : HttpRequest :=
  { url := baseUrl ++ "/v1/stream/mp4/" ++ mediaId,
    authHeader := some ("Bearer " ++ streamToken) }

/-- The client-side auth state managed by `AuthProvider`: the in-memory
`token` and `user` React state and the two localStorage entries. -/
structure ClientAuthState where
  token : Option String
  user : Option String
  lsToken : Option String
  lsUser : Option String
deriving DecidableEq, Repr

/-- The fully signed-out client state: no in-memory token or user and both
localStorage entries removed. -/
def clearedAuthState : ClientAuthState :=
  { token := none, user := none, lsToken := none, lsUser := none }

/-- The `logout` closure of `AuthProvider`: it fires the
POST `/v1/auth/logout` request, whose failure is caught and appended to the
console log rather than propagated, and then unconditionally clears the
in-memory state and both localStorage entries. `logoutResponse` is the
outcome of the request. -/
def clientLogout (logoutResponse : Except String Unit) (st : ClientAuthState)
    (consoleLog : List String) : ClientAuthState × List String :=
  let consoleLog2 :=
    match logoutResponse with
    | .error e => consoleLog ++ [e]
    | .ok _ => consoleLog
  ({ token := none, user := none, lsToken := none, lsUser := none }, consoleLog2)

/-- The value provided by `AuthContext.Provider`, as far as the claims need
it: the user, the token, and the derived `isAuthenticated` flag. -/
structure AuthContextType where
  user : Option String
  token : Option String
  isAuthenticated : Bool
deriving DecidableEq, Repr

/-- The `useAuth` hook: reads the React context, which is `none` exactly
when no surrounding `AuthProvider` exists, throws in that case, and
otherwise returns the context value. -/
def useAuth (ctx : Option AuthContextType) : Except String AuthContextType :=
  match ctx with
  | none => .error ("useAuth must be used within an AuthProvider")
  | some c => .ok c

/-! Concrete sample data used by the witness theorems. -/

/-- A sample stored session owned by user 7, expiring at the default
7-day TTL. -/
def sampleSession : Session := { user_id := 7, created_at := 0, expires_at := 604800 }

/-- A sample store holding the one live session under id 5. -/
def sampleStoreLive : Store := { sessions := [(5, sampleSession)], nextId := 6 }

/-- A sample registered user with password `secret123`. -/
def sampleUser : User :=
  { id := 7, username := ("alice"), email := ("alice@x.com"),
    password_hash := hashPassword ("secret123"), is_admin := false }

/-- Sample orchestrator state: one registered user, one live session. -/
def sampleStateLive : AuthState := { users := [sampleUser], store := sampleStoreLive }

/-- Sample orchestrator state with an empty session store. -/
def sampleStateEmpty : AuthState :=
  { users := [sampleUser], store := { sessions := [], nextId := 0 } }

/-- A sample access token for user 7 bound to session 5, issued at time
100 with secret 0. -/
def sampleAccessToken : AccessToken := sign_access 0 7 5 100

/-- The sample stream token minted from `sampleAccessToken` for
`movie-42` at time 100. -/
def sampleStreamToken : StreamToken := sign_stream 0 7 ("movie-42") 100

/-! Helper lemmas. -/

/-- Looking a key up after filtering that key out finds nothing. -/
theorem find?_filter_self_none (l : List (Nat × Session)) (sid : Nat) :
    (l.filter (fun p => p.1 != sid)).find? (fun p => p.1 == sid) = none := by
  induction l with
  | nil => rfl
  | cons x l ih =>
      by_cases h : x.1 = sid
      · simp [List.filter_cons, h, ih]
      · simp [List.filter_cons, h, List.find?, ih]

/-- A deleted session id no longer resolves in the store. -/
theorem Store.get_delete_self (st : Store) (sid now : Nat) :
    (st.delete sid).get sid now = none := by
  show (match (st.sessions.filter (fun p => p.1 != sid)).find? (fun p => p.1 == sid) with
        | none => none
        | some p => if p.2.expires_at ≤ now then none else some p.2) = none
  rw [find?_filter_self_none]

/-- Filtering a list twice with the same predicate equals filtering once. -/
theorem filter_idem (p : Nat × Session → Bool) (l : List (Nat × Session)) :
    (l.filter p).filter p = l.filter p := by
  induction l with
  | nil => rfl
  | cons x l ih => by_cases h : p x <;> simp [List.filter_cons, h, ih]

/-- A successful `verify_access` returns exactly the token's `sub` and
`sid` claims. -/
theorem verify_access_ok_inv {secret : Nat} {t : AccessToken} {now : Nat}
    {r : Nat × Nat} (h : verify_access secret t now = .ok r) :
    r = (t.claims.sub, t.claims.sid) := by
  unfold verify_access at h
  split at h
  · exact absurd h (by simp)
  · split at h
    · exact absurd h (by simp)
    · exact (Except.ok.inj h).symm

/-- A stream token issued by `issue_stream_token` is exactly the token
signed for the access token's subject and the requested stream id. -/
theorem issue_stream_token_ok_inv {secret : Nat} {st : AuthState}
    {tok : AccessToken} {streamId : String} {now : Nat} {stTok : StreamToken}
    (h : issue_stream_token secret st tok streamId now = .ok stTok) :
    stTok = sign_stream secret tok.claims.sub streamId now := by
  unfold issue_stream_token at h
  split at h
  · simp at h
  · rename_i r hva
    split at h
    · simp at h
    · have hr := verify_access_ok_inv hva
      simp only [Except.ok.injEq] at h
      rw [← h, hr]

/-- Verifying a freshly signed stream token against its own stream id
succeeds while the token is unexpired. -/
theorem verify_sign_stream (secret uid : Nat) (streamId : String) (t0 now : Nat)
    (hnow : now < t0 + streamTokenTtl) :
    verify_stream secret (sign_stream secret uid streamId t0) streamId now = .ok uid := by
  simp [verify_stream, sign_stream, Nat.not_le.mpr hnow]

/-! Claim theorems. -/

/-- C1: after `logout` of the session embedded in an access token,
`issue_stream_token` with that token returns `Unauthorized`, even though
the token's signature still verifies and its `exp` is still in the future;
and in general an access token is accepted only while its embedded `sid`
resolves to a session present in the store — when the `sid` does not
resolve, the result is `Unauthorized`. -/
theorem issue_requires_live_session (secret : Nat) (st st2 : AuthState)
    (tok : AccessToken) (streamId : String) (now : Nat)
    (hsig : tok.sig = macAccess secret tok.claims)
    (hexp : now < tok.claims.exp)
    (hgone : st2.store.get tok.claims.sid now = none) :
    issue_stream_token secret (logout st tok.claims.sid) tok streamId now =
        .error .Unauthorized ∧
    issue_stream_token secret st2 tok streamId now = .error .Unauthorized := by
  have hva : verify_access secret tok now = .ok (tok.claims.sub, tok.claims.sid) := by
    simp [verify_access, hsig, Nat.not_le.mpr hexp]
  constructor
  · simp [issue_stream_token, hva, logout, Store.get_delete_self]
  · simp [issue_stream_token, hva, hgone]

/-- Witness for C1 at the sample data: session 5 is live in
`sampleStateLive` and absent from `sampleStateEmpty`. -/
theorem issue_requires_live_session_witness :
    issue_stream_token 0 (logout sampleStateLive sampleAccessToken.claims.sid)
        sampleAccessToken ("movie-42") 100 = .error .Unauthorized ∧
    issue_stream_token 0 sampleStateEmpty sampleAccessToken ("movie-42") 100 =
        .error .Unauthorized :=
  issue_requires_live_session 0 sampleStateLive sampleStateEmpty sampleAccessToken
    ("movie-42") 100 (by rfl) (by decide) (by decide)

/-- C2: a stream token minted by `issue_stream_token` carries exactly the
claims `sub`, `stream_id`, `exp` = issue time + 6 hours and `iat` — no
session id claim — and `verify_stream` on it succeeds at any time before
its expiry; `verify_stream` takes no session store, so deleting the issuing
session by `logout` cannot invalidate the token. -/
theorem stream_token_outlives_session (secret : Nat) (st : AuthState)
    (tok : AccessToken) (streamId : String) (t0 now : Nat) (stTok : StreamToken)
    (hmint : issue_stream_token secret st tok streamId t0 = .ok stTok)
    (hnow : now < t0 + streamTokenTtl) :
    stTok.claims =
        { sub := tok.claims.sub, stream_id := streamId,
          exp := t0 + streamTokenTtl, iat := t0 } ∧
    verify_stream secret stTok streamId now = .ok tok.claims.sub := by
  have h1 := issue_stream_token_ok_inv hmint
  refine ⟨?_, ?_⟩
  · rw [h1]; rfl
  · rw [h1]; exact verify_sign_stream secret tok.claims.sub streamId t0 now hnow

/-- Witness for C2 at the sample data: the token minted at time 100 still
verifies at time 200, after which `sampleStateLive` may have dropped the
session. -/
theorem stream_token_outlives_session_witness :
    sampleStreamToken.claims =
        { sub := sampleAccessToken.claims.sub, stream_id := ("movie-42"),
          exp := 100 + streamTokenTtl, iat := 100 } ∧
    verify_stream 0 sampleStreamToken ("movie-42") 200 =
        .ok sampleAccessToken.claims.sub :=
  stream_token_outlives_session 0 sampleStateLive sampleAccessToken ("movie-42")
    100 200 sampleStreamToken (by rfl) (by decide)

/-- C3: a stream token signed for stream id `a`, checked against a
different expected stream id `b`, fails with `ScopeMismatch`; checked
against `a` itself it succeeds and returns the user id. -/
theorem stream_scope_mismatch (secret uid : Nat) (a b : String) (t0 now : Nat)
    (hnow : now < t0 + streamTokenTtl) (hne : a ≠ b) :
    verify_stream secret (sign_stream secret uid a t0) b now =
        .error .ScopeMismatch ∧
    verify_stream secret (sign_stream secret uid a t0) a now = .ok uid := by
  constructor
  · simp [verify_stream, sign_stream, Nat.not_le.mpr hnow, hne]
  · exact verify_sign_stream secret uid a t0 now hnow

/-- Witness for C3: the token for stream `A` is rejected for stream `B`
with `ScopeMismatch` and accepted for `A`. -/
theorem stream_scope_mismatch_witness :
    verify_stream 0 (sign_stream 0 7 ("A") 100) ("B") 200 =
        .error .ScopeMismatch ∧
    verify_stream 0 (sign_stream 0 7 ("A") 100) ("A") 200 = .ok 7 :=
  stream_scope_mismatch 0 7 ("A") ("B") 100 200 (by decide) (by decide)

/-- C4: when the Credential Verifier accepts the credentials, `login`
succeeds, returning the freshly created session id together with an access
token, and `verify_access` on that token at any time within the 15-minute
lifetime returns the credential-resolved user id and that same session
id. -/
theorem login_then_verify (secret : Nat) (st : AuthState) (identifier pw : String)
    (ttl now now2 : Nat) (u : User)
    (hcred : credentialVerify st.users identifier pw = .ok u)
    (hle : now ≤ now2) (hlt : now2 < now + accessTokenTtl) :
    (login secret st identifier pw ttl now).1 =
        .ok (st.store.nextId, sign_access secret u.id st.store.nextId now) ∧
    verify_access secret (sign_access secret u.id st.store.nextId now) now2 =
        .ok (u.id, st.store.nextId) := by
  constructor
  · simp [login, hcred, Store.create]
  · simp [verify_access, sign_access, Nat.not_le.mpr hlt]

/-- Witness for C4: alice logs in with her correct password at time 100
and the returned token verifies at time 200. -/
theorem login_then_verify_witness :
    (login 0 sampleStateEmpty ("alice") ("secret123") 604800 100).1 =
        .ok (sampleStateEmpty.store.nextId,
          sign_access 0 sampleUser.id sampleStateEmpty.store.nextId 100) ∧
    verify_access 0 (sign_access 0 sampleUser.id sampleStateEmpty.store.nextId 100)
        200 = .ok (sampleUser.id, sampleStateEmpty.store.nextId) :=
  login_then_verify 0 sampleStateEmpty ("alice") ("secret123") 604800 100 200
    sampleUser (by rfl) (by decide) (by decide)

/-- C5: `refresh` on a live session leaves the whole orchestrator state —
in particular the stored session record, its id and its `expires_at` —
unchanged, returns a fresh token bound to the same session id, and once
`expires_at` has passed, `refresh` on the same (never-extended) store fails
with `SessionNotFound`. -/
theorem refresh_frame (secret : Nat) (st : AuthState) (sid now later : Nat)
    (s : Session)
    (hlive : st.store.get sid now = some s) (hexp : s.expires_at ≤ later) :
    (refresh secret st sid now).2 = st ∧
    (refresh secret st sid now).1 = .ok (sign_access secret s.user_id sid now) ∧
    (refresh secret st sid later).1 = .error .SessionNotFound := by
  have hfind : ∃ p, st.store.sessions.find? (fun q => q.1 == sid) = some p ∧
      p.2 = s := by
    unfold Store.get at hlive
    split at hlive
    · simp at hlive
    · rename_i p hf
      split at hlive
      · simp at hlive
      · exact ⟨p, hf, Option.some.inj hlive⟩
  obtain ⟨p, hf, hp⟩ := hfind
  have hget_later : st.store.get sid later = none := by
    unfold Store.get
    rw [hf]
    simp [hp, hexp]
  refine ⟨?_, ?_, ?_⟩
  · simp [refresh, hlive]
  · simp [refresh, hlive]
  · simp [refresh, hget_later]

/-- Witness for C5: the sample session is live at time 100 and expired at
time 604800. -/
theorem refresh_frame_witness :
    (refresh 0 sampleStateLive 5 100).2 = sampleStateLive ∧
    (refresh 0 sampleStateLive 5 100).1 =
        .ok (sign_access 0 sampleSession.user_id 5 100) ∧
    (refresh 0 sampleStateLive 5 604800).1 = .error .SessionNotFound :=
  refresh_frame 0 sampleStateLive 5 100 604800 sampleSession (by decide) (by decide)

/-- C6: when the identifier matches no stored user, and when it matches a
user whose hash rejects the password, the Credential Verifier — and
`login`, which propagates its error unwrapped — returns the very same
`InvalidCredentials` value, so the two failure causes are observationally
identical to the caller. -/
theorem invalid_credentials_indistinguishable (secret : Nat) (st1 st2 : AuthState)
    (id1 pw1 id2 pw2 : String) (u : User) (ttl now : Nat)
    (h1 : findUser st1.users id1 = none)
    (h2 : findUser st2.users id2 = some u)
    (h3 : verifyPassword u.password_hash pw2 = false) :
    (login secret st1 id1 pw1 ttl now).1 = .error .InvalidCredentials ∧
    (login secret st2 id2 pw2 ttl now).1 = .error .InvalidCredentials ∧
    credentialVerify st1.users id1 pw1 = credentialVerify st2.users id2 pw2 := by
  have hc1 : credentialVerify st1.users id1 pw1 = .error .InvalidCredentials := by
    simp [credentialVerify, h1]
  have hc2 : credentialVerify st2.users id2 pw2 = .error .InvalidCredentials := by
    simp [credentialVerify, h2, h3]
  exact ⟨by simp [login, hc1], by simp [login, hc2], by rw [hc1, hc2]⟩

/-- Witness for C6: `bob` matches no stored user while `alice` exists but
`wrong` is not her password; both login attempts fail identically. -/
theorem invalid_credentials_indistinguishable_witness :
    (login 0 sampleStateEmpty ("bob") ("pw") 604800 100).1 =
        .error .InvalidCredentials ∧
    (login 0 sampleStateEmpty ("alice") ("wrong") 604800 100).1 =
        .error .InvalidCredentials ∧
    credentialVerify sampleStateEmpty.users ("bob") ("pw") =
        credentialVerify sampleStateEmpty.users ("alice") ("wrong") :=
  invalid_credentials_indistinguishable 0 sampleStateEmpty sampleStateEmpty
    ("bob") ("pw") ("alice") ("wrong") sampleUser 604800 100
    (by decide) (by decide) (by decide)

/-- C7: `logout` is idempotent — deleting the same session id twice leaves
the state exactly as deleting it once, for every state and every session
id, present or absent; since all verification reads only this state, all
subsequent verification outcomes coincide, and `logout` returns no error by
its very type. -/
theorem logout_idempotent (st : AuthState) (sid : Nat) :
    logout (logout st sid) sid = logout st sid := by
  simp [logout, Store.delete, filter_idem]

/-- C8: in the `loadVideo` flow, every request URL — the stream-token
exchange and the media-bytes fetch — is a function of the server base URL
and the media id only: changing the stream token leaves the fetch URL
unchanged, the URL is literally the base URL with the `/v1/stream/mp4/`
path and the media id, and the stream token travels solely in the
`Authorization` header. -/
theorem stream_token_not_in_url (base mediaId tok tok2 : String) :
    (mediaFetchRequest base mediaId tok).url =
        (mediaFetchRequest base mediaId tok2).url ∧
    (mediaFetchRequest base mediaId tok).url =
        base ++ ("/v1/stream/mp4/") ++ mediaId ∧
    (mediaFetchRequest base mediaId tok).authHeader = some (("Bearer ") ++ tok) ∧
    (streamTokenRequest base mediaId tok).url =
        base ++ ("/v1/stream/") ++ mediaId ++ ("/token") :=
  ⟨rfl, rfl, rfl, rfl⟩

/-- C9: the `AuthProvider` logout clears the in-memory token and user and
removes both localStorage entries no matter how the server request ends:
a failed request only appends its error to the console log while a
successful one leaves the log unchanged, and in both cases the resulting
client state is the fully signed-out one. -/
theorem client_logout_clears_state (resp : Except String Unit)
    (st : ClientAuthState) (consoleLog : List String) (e : String) :
    (clientLogout resp st consoleLog).1 = clearedAuthState ∧
    (clientLogout (.error e) st consoleLog).2 = consoleLog ++ [e] ∧
    (clientLogout (.ok ()) st consoleLog).2 = consoleLog :=
  ⟨rfl, rfl, rfl⟩

/-- C10: `useAuth` outside any `AuthProvider` — that is, with an undefined
context — always throws the provider error, and with a surrounding
provider it returns the provider's context value, so the throw branch is
unreachable under that precondition. -/
theorem useAuth_throws_without_provider :
    useAuth none = .error ("useAuth must be used within an AuthProvider") ∧
    ∀ c : AuthContextType, useAuth (some c) = .ok c :=
  ⟨rfl, fun _ => rfl⟩

end Beam
